import Mathlib

/-!
Verification of the FPL team-analyzer pipeline
(`netlify/functions/analyze-team.js`) against its specification.

The JavaScript is shallowly embedded: JS numbers are modelled as exact
rationals (`ℚ`), `Math.round` as `⌊x + 1/2⌋`, `toFixed(1)` round-trips as
rounding to one decimal, `Array.prototype.sort` (stable since ES2019) as
Mathlib's stable `List.insertionSort` with the comparator's non-strict
relation, and a JavaScript `Map` as an association list whose keys carry
their JS type (a `Map` compares keys with SameValueZero, so a numeric key
never matches a string key).  Fallible steps (a squad pick whose element id
is not in the player map would throw a `TypeError`, caught by the handler's
`try`) are modelled with `Option`.
-/

namespace FPL

/-- A JavaScript `Map` key as used by this program: either a string
(team short names) or a number (player/team ids).  SameValueZero equality
never identifies a string with a number. -/
inductive JKey where
  | str (s : String)
  | num (n : Nat)
deriving DecidableEq, Repr

/-- `Map.prototype.get`: the value stored at `k`, if any. -/
def jget {β : Type} : List (JKey × β) → JKey → Option β
  | [], _ => none
  | (k', v) :: rest, k => if k' = k then some v else jget rest k

/-- `Map.prototype.set`: overwrite the entry at `k` in place, else append. -/
def jset {β : Type} (m : List (JKey × β)) (k : JKey) (v : β) : List (JKey × β) :=
  if m.any (fun p => p.1 = k) then
    m.map (fun p => if p.1 = k then (k, v) else p)
  else m ++ [(k, v)]

/-- Lookup in a number-keyed `Map` (player-by-id, team-by-id). -/
def nget {β : Type} : List (Nat × β) → Nat → Option β
  | [], _ => none
  | (k', v) :: rest, k => if k' = k then some v else nget rest k

/-- JavaScript `Math.round`: round half towards positive infinity. -/
def jsRound (q : ℚ) : ℤ := ⌊q + 1/2⌋

/-- The value of `x.toFixed(1)` re-read as a number (`toFixed` rounds to the
nearest multiple of 1/10, ties towards the larger value). -/
def roundTo1 (q : ℚ) : ℚ := (jsRound (q * 10) : ℚ) / 10

/-- Decimal rendering of `x.toFixed(1)` for a rational. -/
def qToFixed1 (q : ℚ) : String :=
  let n : ℤ := jsRound (q * 10)
  if n < 0 then "-" ++ s!"{(-n) / 10}.{(-n) % 10}"
  else s!"{n / 10}.{n % 10}"

/-! ### Upstream data shapes (the FPL API responses the function consumes) -/

/-- An entry of `bootstrap-static`'s `elements` array (a player). -/
structure Element where
  id : Nat
  web_name : String
  /-- the id of the player's club in `bootstrap.teams` -/
  team : Nat
  /-- the club's *code* (a distinct numeric identifier, not the id and not
  the short name) -/
  team_code : Nat
  element_type : Nat
  /-- price in tenths (`now_cost / 10` is the displayed price) -/
  now_cost : ℚ
  /-- numeric value of the API's decimal `form` string -/
  form : ℚ
  selected_by_percent : String
  total_points : ℤ
  points_per_game : String
deriving DecidableEq, Repr

/-- An entry of `bootstrap-static`'s `teams` array. -/
structure Team where
  id : Nat
  short_name : String
deriving DecidableEq, Repr

/-- An entry of the `fixtures/` response. -/
structure Fixture where
  event : Nat
  team_h : Nat
  team_a : Nat
  team_h_difficulty : ℚ
  team_a_difficulty : ℚ
deriving DecidableEq, Repr

/-- An entry of `bootstrap-static`'s `events` array (a gameweek);
`id` is optional so that an absent field is representable. -/
structure Event where
  id : Option Nat
  is_current : Bool
deriving DecidableEq, Repr

structure Bootstrap where
  events : List Event
  elements : List Element
  teams : List Team
deriving Repr

/-- The `entry/{id}/` (manager profile) response fields the code reads. -/
structure TeamData where
  player_first_name : String
  player_last_name : String
  last_deadline_value : ℚ
  last_deadline_bank : ℚ
  summary_overall_rank : ℤ
  summary_event_rank : ℤ
  summary_overall_points : ℤ
deriving Repr

/-- One element of the picks response's `picks` array. -/
structure Pick where
  element : Nat
  is_captain : Bool
  is_vice_captain : Bool
deriving DecidableEq, Repr

structure PicksData where
  picks : List Pick
deriving Repr

/-- A value of the player lookup `playersMap`: the element spread together
with `team` overridden by the club's short name
(`bootstrapData.teams.find(t => t.id === player.team)?.short_name || 'UNK'`). -/
structure PoolPlayer where
  id : Nat
  web_name : String
  /-- the club's short name (overrides the element's numeric `team`) -/
  team : String
  team_code : Nat
  element_type : Nat
  now_cost : ℚ
  form : ℚ
  selected_by_percent : String
  total_points : ℤ
  points_per_game : String
deriving DecidableEq, Repr

/-- `playersMap`: player id ↦ element with `team` replaced by the short name. -/
def buildPlayersMap (bs : Bootstrap) : List (Nat × PoolPlayer) :=
  bs.elements.map (fun p =>
    (p.id,
      { id := p.id
        web_name := p.web_name
        team :=
          match bs.teams.find? (fun t => t.id = p.team) with
          | none => "UNK"
          | some t => if t.short_name = "" then "UNK" else t.short_name
        team_code := p.team_code
        element_type := p.element_type
        now_cost := p.now_cost
        form := p.form
        selected_by_percent := p.selected_by_percent
        total_points := p.total_points
        points_per_game := p.points_per_game }))

/-- `teamsMap`: team id ↦ team. -/
def buildTeamsMap (bs : Bootstrap) : List (Nat × Team) :=
  bs.teams.map (fun t => (t.id, t))

/-- `bootstrapData.events.find(e => e.is_current)?.id || 1`. -/
def currentGWOf (bs : Bootstrap) : Nat :=
  match (bs.events.find? (fun e => e.is_current)).bind (fun e => e.id) with
  | none => 1
  | some n => if n = 0 then 1 else n

/-! ### Helper functions of the source file -/

/-- `getPosition`. -/
def getPosition (elementType : Nat) : String :=
  if elementType = 1 then "GK"
  else if elementType = 2 then "DEF"
  else if elementType = 3 then "MID"
  else if elementType = 4 then "FWD"
  else "UNK"

/-- `getRating`: form-based rating adjusted by fixture difficulty. -/
def getRating (form avgDifficulty : ℚ) : String :=
  let formScore := form * 2
  let fixtureBonus := (5 - avgDifficulty) * 2
  let totalScore := formScore + fixtureBonus
  if 14 ≤ totalScore then "Excellent"
  else if 10 ≤ totalScore then "Good"
  else if 6 ≤ totalScore then "Average"
  else "Poor"

/-- `getRatingClass`. -/
def getRatingClass (form avgDifficulty : ℚ) : String :=
  (getRating form avgDifficulty).toLower

/-- A fixture as annotated for one team's upcoming window. -/
structure FixtureEntry where
  gameweek : Nat
  opponent : String
  difficulty : ℚ
  isHome : Bool
deriving DecidableEq, Repr

/-- The annotation step inside `getNextFixtures`:
opponent short code (`'@'`-prefixed when away; JS renders a missing map hit
as the string `"undefined"`), the team's own difficulty, home flag. -/
def fixtureAnnotate (teamsMap : List (Nat × Team)) (team : Team) (f : Fixture) :
    FixtureEntry :=
  let isHome := f.team_h = team.id
  let opponent :=
    if isHome then (nget teamsMap f.team_a).map (fun t => t.short_name)
    else (nget teamsMap f.team_h).map (fun t => t.short_name)
  { gameweek := f.event
    opponent := (if isHome then "" else "@") ++ opponent.getD "undefined"
    difficulty := if isHome then f.team_h_difficulty else f.team_a_difficulty
    isHome := isHome }

/-- The window filter and ascending sort of `getNextFixtures`
(`f.event >= currentGW && f.event <= currentGW + 8`, sort by `event`). -/
def upcomingFixtures (allFixtures : List Fixture) (currentGW : Nat) : List Fixture :=
  (allFixtures.filter (fun f => currentGW ≤ f.event ∧ f.event ≤ currentGW + 8)).insertionSort
    (fun a b => a.event ≤ b.event)

/-- One team's value in the `teamFixtures` map: participation filter,
annotation, truncation to 8. -/
def teamUpcoming (allFixtures : List Fixture) (currentGW : Nat)
    (teamsMap : List (Nat × Team)) (team : Team) : List FixtureEntry :=
  (((upcomingFixtures allFixtures currentGW).filter
      (fun f => f.team_h = team.id ∨ f.team_a = team.id)).map
    (fixtureAnnotate teamsMap team)).take 8

/-- `getNextFixtures`: a `Map` keyed by team *short name*. -/
def getNextFixtures (allFixtures : List Fixture) (currentGW : Nat)
    (teamsMap : List (Nat × Team)) : List (JKey × List FixtureEntry) :=
  teamsMap.foldl
    (fun acc e => jset acc (JKey.str e.2.short_name)
      (teamUpcoming allFixtures currentGW teamsMap e.2)) []

/-- `fixtures.reduce((sum, f) => sum + f.difficulty, 0) / fixtures.length || 3`:
for an empty list `0/0` is `NaN`, which is falsy, so the result is 3 (as it
also is when a non-empty average happens to be exactly 0). -/
def avgDifficultyJS (fixtures : List FixtureEntry) : ℚ :=
  if fixtures.length = 0 then 3
  else
    let a := (fixtures.map (fun f => f.difficulty)).sum / (fixtures.length : ℚ)
    if a = 0 then 3 else a

/-! ### Squad analysis (the `picksData.picks.map` in the handler) -/

/-- One analyzed squad slot.  `form` and `avgDifficulty` hold the numeric
values of the `toFixed(1)` strings the JS stores; `rating`/`ratingClass` are
computed from the *unrounded* form and average (as in the source). -/
structure SquadPlayer where
  id : Nat
  name : String
  team : String
  position : String
  price : ℚ
  form : ℚ
  selectedBy : String
  fixtures : String
  avgDifficulty : ℚ
  rating : String
  ratingClass : String
  totalPoints : ℤ
  pointsPerGame : String
  isCaptain : Bool
  isViceCaptain : Bool
deriving DecidableEq, Repr

/-- The body of the squad `map`.  `none` models the `TypeError` thrown when
`playersMap.get(pick.element)` is `undefined` (caught by the handler's
`try`, yielding the 500 path).  Note the fixture lookup key: the source
uses `player.team_code` (a number) against a map keyed by short names. -/
def analyzePick (playersMap : List (Nat × PoolPlayer))
    (teamFixtures : List (JKey × List FixtureEntry)) (pick : Pick) :
    Option SquadPlayer :=
  (nget playersMap pick.element).map (fun player =>
    let fixtures :=
      ((jget teamFixtures (JKey.num player.team_code)).map
        (fun l => l.take 5)).getD []
    let avgDifficulty := avgDifficultyJS fixtures
    { id := player.id
      name := player.web_name
      team := player.team
      position := getPosition player.element_type
      price := player.now_cost / 10
      form := roundTo1 player.form
      selectedBy := player.selected_by_percent
      fixtures := String.intercalate ", " (fixtures.map (fun f => f.opponent))
      avgDifficulty := roundTo1 avgDifficulty
      rating := getRating player.form avgDifficulty
      ratingClass := getRatingClass player.form avgDifficulty
      totalPoints := player.total_points
      pointsPerGame := player.points_per_game
      isCaptain := pick.is_captain
      isViceCaptain := pick.is_vice_captain })

/-- `picksData.picks.map(...)`: the whole squad, or `none` if a pick fails
to resolve. -/
def analyzeSquad (picksData : PicksData) (playersMap : List (Nat × PoolPlayer))
    (teamFixtures : List (JKey × List FixtureEntry)) :
    Option (List SquadPlayer) :=
  picksData.picks.mapM (analyzePick playersMap teamFixtures)

/-! ### `findTransferOpportunities` -/

/-- A pool player annotated with its own next-5 window
(`{ ...p, avgDifficulty: avgDiff, fixtures }`). -/
structure Alternative where
  player : PoolPlayer
  avgDifficulty : ℚ
  fixtures : List FixtureEntry
deriving DecidableEq, Repr

/-- The `.map` step over replacement candidates. -/
def annotateAlternative (teamFixtures : List (JKey × List FixtureEntry))
    (p : PoolPlayer) : Alternative :=
  let fixtures :=
    ((jget teamFixtures (JKey.str p.team)).map (fun l => l.take 5)).getD []
  let avgDiff := avgDifficultyJS fixtures
  { player := p, avgDifficulty := avgDiff, fixtures := fixtures }

/-- Weak squad members: poor form or hard fixtures, worst form first,
at most 3. -/
def transferOutCandidates (squad : List SquadPlayer) : List SquadPlayer :=
  ((squad.filter (fun p => p.form < 3 ∨ (3.5 : ℚ) < p.avgDifficulty)).insertionSort
    (fun a b => a.form ≤ b.form)).take 3

/-- The replacement search for one outgoing player: same position, affordable
(`p.now_cost / 10 <= playerOut.price + bank`), strictly better form, not the
same player, not already in the squad; scored by `2·form − avgDifficulty`
descending; `slice(0, 1)`. -/
def alternativesFor (squad : List SquadPlayer)
    (playersMap : List (Nat × PoolPlayer))
    (teamFixtures : List (JKey × List FixtureEntry)) (bank : ℚ)
    (playerOut : SquadPlayer) : List Alternative :=
  ((((playersMap.map (fun e => e.2)).filter (fun p =>
        getPosition p.element_type = playerOut.position ∧
        p.now_cost / 10 ≤ playerOut.price + bank ∧
        playerOut.form < p.form ∧
        p.id ≠ playerOut.id ∧
        ¬ squad.any (fun s => s.id = p.id))).map
      (annotateAlternative teamFixtures)).insertionSort
    (fun a b =>
      b.player.form * 2 - b.avgDifficulty ≤ a.player.form * 2 - a.avgDifficulty)).take 1

/-- The chosen (outgoing, incoming) pairs, in the order the source pushes
them (one per weak player that has at least one alternative). -/
def transferPairs (squad : List SquadPlayer)
    (playersMap : List (Nat × PoolPlayer))
    (teamFixtures : List (JKey × List FixtureEntry)) (bank : ℚ) :
    List (SquadPlayer × Alternative) :=
  (transferOutCandidates squad).filterMap (fun playerOut =>
    match alternativesFor squad playersMap teamFixtures bank playerOut with
    | [] => none
    | playerIn :: _ => some (playerOut, playerIn))

/-- One transfer recommendation record.  Numeric fields hold the values of
the `toFixed(1)` strings; the two `reasoning` strings interpolate the same
values (string formatting of numbers is rendered with `qToFixed1`). -/
structure Transfer where
  outName : String
  outTeam : String
  outForm : ℚ
  outPrice : ℚ
  outFixtures : String
  inName : String
  inTeam : String
  inForm : ℚ
  inPrice : ℚ
  inFixtures : String
  cost : ℚ
  projectedPoints : ℚ
  reasoningOut : String
  reasoningIn : String
deriving DecidableEq, Repr

/-- The record pushed for a chosen pair. -/
def mkTransfer (pair : SquadPlayer × Alternative) : Transfer :=
  let playerOut := pair.1
  let playerIn := pair.2
  let cost := playerIn.player.now_cost / 10 - playerOut.price
  let projectedPoints := (playerIn.player.form - playerOut.form) * 5
  let inFixturesStr :=
    String.intercalate ", " (playerIn.fixtures.map (fun f => f.opponent))
  { outName := playerOut.name
    outTeam := playerOut.team
    outForm := playerOut.form
    outPrice := playerOut.price
    outFixtures := playerOut.fixtures
    inName := playerIn.player.web_name
    inTeam := playerIn.player.team
    inForm := roundTo1 playerIn.player.form
    inPrice := playerIn.player.now_cost / 10
    inFixtures := inFixturesStr
    cost := roundTo1 cost
    projectedPoints := roundTo1 projectedPoints
    reasoningOut :=
      s!"Form {qToFixed1 playerOut.form}, Difficult fixtures ({playerOut.fixtures}), Rating: {playerOut.rating}"
    reasoningIn :=
      s!"Strong form {qToFixed1 (roundTo1 playerIn.player.form)}, Favorable fixtures ({inFixturesStr}), {playerIn.player.selected_by_percent}% owned" }

/-- `findTransferOpportunities`: the pushed records, `slice(0, 2)`. -/
def findTransferOpportunities (squad : List SquadPlayer)
    (playersMap : List (Nat × PoolPlayer))
    (teamFixtures : List (JKey × List FixtureEntry)) (bank : ℚ) :
    List Transfer :=
  ((transferPairs squad playersMap teamFixtures bank).map mkTransfer).take 2

/-! ### `getCaptainRecommendations` -/

/-- A scored captaincy candidate (the squad record spread together with the
three added fields). -/
structure CaptainCandidate where
  player : SquadPlayer
  nextFixture : String
  captainScore : ℚ
  confidence : ℤ
deriving DecidableEq, Repr

/-- The scoring map over the squad
(`10·form + (nextFixture ? (6 − difficulty)·5 : 0) + (home ? 5 : 0)`,
confidence `min(95, round(score · 1.2))`).  The display field follows
`nextFixture?.opponent || 'N/A'`: both a missing next fixture and an
empty-string opponent code render as `"N/A"`. -/
def captainCandidateOf (teamFixtures : List (JKey × List FixtureEntry))
    (player : SquadPlayer) : CaptainCandidate :=
  let fixtures :=
    ((jget teamFixtures (JKey.str player.team)).map (fun l => l.take 1)).getD []
  let nextFixture := fixtures.head?
  let formScore := player.form * 10
  let fixtureScore :=
    match nextFixture with
    | some nf => (6 - nf.difficulty) * 5
    | none => 0
  let homeBonus :=
    match nextFixture with
    | some nf => if nf.isHome then (5 : ℚ) else 0
    | none => 0
  let totalScore := formScore + fixtureScore + homeBonus
  { player := player
    nextFixture :=
      match nextFixture.map (fun f => f.opponent) with
      | none => "N/A"
      | some s => if s = "" then "N/A" else s
    captainScore := totalScore
    confidence := min 95 (jsRound (totalScore * 1.2)) }

/-- The sorted, truncated candidate list (`sort` descending by score,
`slice(0, 3)`). -/
def captainCandidates (squad : List SquadPlayer)
    (teamFixtures : List (JKey × List FixtureEntry)) : List CaptainCandidate :=
  (((squad.map (captainCandidateOf teamFixtures)).insertionSort
    (fun a b => b.captainScore ≤ a.captainScore)).take 3)

/-- The returned captaincy record. -/
structure CaptainRec where
  name : String
  confidence : ℤ
  reasoning : String
deriving DecidableEq, Repr

/-- `getCaptainRecommendations`: project each candidate; the top pick's
reasoning text differs from the others. -/
def getCaptainRecommendations (squad : List SquadPlayer)
    (teamFixtures : List (JKey × List FixtureEntry)) : List CaptainRec :=
  (captainCandidates squad teamFixtures).mapIdx (fun idx p =>
    { name := p.player.name ++ " (" ++ p.player.team ++ ")"
      confidence := p.confidence
      reasoning :=
        if idx = 0 then
          s!"Top form ({qToFixed1 p.player.form}), favorable fixture vs {p.nextFixture}, {p.player.selectedBy}% owned"
        else
          s!"Good form ({qToFixed1 p.player.form}), decent fixture vs {p.nextFixture}" })

/-! ### `generateInsights` -/

structure Insight where
  icon : String
  title : String
  message : String
deriving DecidableEq, Repr

def strongFixtureRunInsight (easyFixtures : Nat) : Insight :=
  { icon := "✅"
    title := "Strong Fixture Run"
    message := s!"{easyFixtures} of your players have favorable fixtures in the next 5 gameweeks. Good time to hold your team." }

def difficultFixturesInsight (hardFixtures : Nat) : Insight :=
  { icon := "⚠️"
    title := "Difficult Fixtures Ahead"
    message := s!"{hardFixtures} players face tough fixtures. Consider using your free transfer strategically or save it for a double gameweek." }

def formConcernsInsight (poorForm : Nat) : Insight :=
  { icon := "📉"
    title := "Form Concerns"
    message := s!"{poorForm} players are struggling for form. Monitor team news and consider transfers if this continues." }

def strongTeamValueInsight (teamValue : ℚ) : Insight :=
  { icon := "💰"
    title := "Strong Team Value"
    message := s!"Your team is valued at £{qToFixed1 teamValue}m. You've built good value through smart transfers and price rises." }

def transferOpportunitiesInsight (count : Nat) : Insight :=
  { icon := "🔄"
    title := "Transfer Opportunities"
    message := s!"We've identified {count} potential upgrade(s) that could improve your team over the next 5 gameweeks." }

def teamLookingSolidInsight : Insight :=
  { icon := "✨"
    title := "Team Looking Solid"
    message := "No urgent transfers needed. Consider banking your free transfer or monitoring for upcoming double gameweeks." }

/-- The first three (fixture, form, value) checks of `generateInsights`,
pushed in source order. -/
def insightsBeforeTransfers (squad : List SquadPlayer) (teamData : TeamData) :
    List Insight :=
  let easyFixtures := (squad.filter (fun p => p.avgDifficulty < (2.5 : ℚ))).length
  let hardFixtures := (squad.filter (fun p => (3.5 : ℚ) < p.avgDifficulty)).length
  let insights : List Insight :=
    if 5 ≤ easyFixtures then [strongFixtureRunInsight easyFixtures]
    else if 5 ≤ hardFixtures then [difficultFixturesInsight hardFixtures]
    else []
  let poorForm := (squad.filter (fun p => p.form < 2)).length
  let insights :=
    if 3 ≤ poorForm then insights ++ [formConcernsInsight poorForm] else insights
  let teamValue := teamData.last_deadline_value / 10
  if (103 : ℚ) ≤ teamValue then insights ++ [strongTeamValueInsight teamValue]
  else insights

/-- `generateInsights`: the fixed battery of threshold checks, then exactly
one of the two transfer-related insights. -/
def generateInsights (squad : List SquadPlayer) (transfers : List Transfer)
    (teamData : TeamData) : List Insight :=
  let insights := insightsBeforeTransfers squad teamData
  if 0 < transfers.length then
    insights ++ [transferOpportunitiesInsight transfers.length]
  else insights ++ [teamLookingSolidInsight]

/-! ### The HTTP handler -/

/-- An upstream fetch the handler issues, in order. -/
inductive FetchCall where
  | bootstrap
  | team (teamId : String)
  | fixtures
  | picks (teamId : String) (gw : Nat)
deriving DecidableEq, Repr

structure QueryStringParameters where
  teamId : Option String
deriving Repr

structure RequestEvent where
  httpMethod : String
  queryStringParameters : Option QueryStringParameters
deriving Repr

/-- The four upstream responses available to one request (the picks response
depends on the gameweek the handler asks for). -/
structure World where
  bootstrap : Bootstrap
  teamData : TeamData
  fixtures : List Fixture
  picksFor : Nat → PicksData

/-- The successful (200) response body. -/
structure AnalysisBody where
  teamName : String
  teamValue : ℚ
  bank : ℚ
  overallRank : ℤ
  gameweekRank : ℤ
  totalPoints : ℤ
  currentGW : Nat
  squad : List SquadPlayer
  transfers : List Transfer
  captains : List CaptainRec
  insights : List Insight

/-- A response body: empty (OPTIONS), an error object, or the analysis. -/
inductive Body where
  | empty
  | errorBody (error : String) (message : Option String)
  | analysis (a : AnalysisBody)

structure HandlerResult where
  statusCode : Nat
  body : Body
  trace : List FetchCall

/-- The whole pipeline after the fetches, for a given gameweek: `none`
models the thrown-and-caught exception path (an unresolvable pick). -/
def analyzeAll (w : World) (gw : Nat) : Option AnalysisBody :=
  let playersMap := buildPlayersMap w.bootstrap
  let teamsMap := buildTeamsMap w.bootstrap
  let teamFixtures := getNextFixtures w.fixtures gw teamsMap
  (analyzeSquad (w.picksFor gw) playersMap teamFixtures).map (fun squad =>
    let transfers := findTransferOpportunities squad playersMap teamFixtures
      (w.teamData.last_deadline_bank / 10)
    let captains := getCaptainRecommendations squad teamFixtures
    let insights := generateInsights squad transfers w.teamData
    { teamName := w.teamData.player_first_name ++ " " ++ w.teamData.player_last_name
      teamValue := roundTo1 (w.teamData.last_deadline_value / 10)
      bank := roundTo1 (w.teamData.last_deadline_bank / 10)
      overallRank := w.teamData.summary_overall_rank
      gameweekRank := w.teamData.summary_event_rank
      totalPoints := w.teamData.summary_overall_points
      currentGW := gw
      squad := squad
      transfers := transfers
      captains := captains
      insights := insights })

/-- `exports.handler`.  The trace records the upstream fetches the handler
issues, in order; the OPTIONS and missing-`teamId` paths issue none.
`!teamId` is true exactly for an absent parameter (`undefined`) and for the
empty string, so the guard is modelled as `getD "" = ""`. -/
def handler (e : RequestEvent) (w : World) : HandlerResult :=
  if e.httpMethod = "OPTIONS" then
    { statusCode := 200, body := Body.empty, trace := [] }
  else
    let teamId := (e.queryStringParameters.bind (fun q => q.teamId)).getD ""
    if teamId = "" then
      { statusCode := 400, body := Body.errorBody "Team ID is required" none
        trace := [] }
    else
      let gw := currentGWOf w.bootstrap
      let trace := [FetchCall.bootstrap, FetchCall.team teamId,
        FetchCall.fixtures, FetchCall.picks teamId gw]
      match analyzeAll w gw with
      | some a =>
        { statusCode := 200, body := Body.analysis a, trace := trace }
      | none =>
        { statusCode := 500
          body := Body.errorBody "Failed to analyze team"
            (some "Cannot read properties of undefined")
          trace := trace }

/-! ### Concrete sample data (used by witnesses and counterexamples) -/

namespace Sample

/-- Two clubs. -/
def teamA : Team := { id := 1, short_name := "AAA" }

def teamB : Team := { id := 2, short_name := "BBB" }

def bootTeams : List Team := [teamA, teamB]

/-- A midfielder of club `AAA` (id 1, code 10). -/
def elemP : Element :=
  { id := 7, web_name := "P", team := 1, team_code := 10, element_type := 3
    now_cost := 50, form := 5, selected_by_percent := "10.0"
    total_points := 50, points_per_game := "5.0" }

/-- A weak-form midfielder of club `BBB`. -/
def elemQ : Element :=
  { id := 8, web_name := "Q", team := 2, team_code := 20, element_type := 3
    now_cost := 60, form := 1, selected_by_percent := "3.0"
    total_points := 12, points_per_game := "1.0" }

/-- One current event. -/
def bootstrap : Bootstrap :=
  { events := [{ id := some 1, is_current := true }]
    elements := [elemP, elemQ]
    teams := bootTeams }

/-- A bootstrap with no event marked current. -/
def bootstrapNoCurrent : Bootstrap :=
  { events := [{ id := some 4, is_current := false }]
    elements := [elemP, elemQ]
    teams := bootTeams }

/-- Five hard fixtures for `AAA` (home difficulty 5), gameweeks 1–5. -/
def fixturesAvsB : List Fixture :=
  (List.range 5).map (fun i =>
    { event := i + 1, team_h := 1, team_a := 2
      team_h_difficulty := 5, team_a_difficulty := 2 })

/-- Nine fixtures for `AAA`, one in each gameweek 1–9 (all inside the
window `[1, 1+8]`). -/
def fixtures9 : List Fixture :=
  (List.range 9).map (fun i =>
    { event := i + 1, team_h := 1, team_a := 2
      team_h_difficulty := 3, team_a_difficulty := 3 })

def teamData : TeamData :=
  { player_first_name := "A", player_last_name := "B"
    last_deadline_value := 1000, last_deadline_bank := 5
    summary_overall_rank := 1000, summary_event_rank := 1000
    summary_overall_points := 100 }

def world : World :=
  { bootstrap := bootstrap, teamData := teamData, fixtures := fixturesAvsB
    picksFor := fun _ =>
      { picks := [{ element := 7, is_captain := true, is_vice_captain := false }] } }

def worldNoCurrent : World :=
  { bootstrap := bootstrapNoCurrent, teamData := teamData
    fixtures := fixturesAvsB
    picksFor := fun _ =>
      { picks := [{ element := 7, is_captain := true, is_vice_captain := false }] } }

/-- A generic analyzed squad slot to instantiate witnesses with. -/
def squadPlayer (id : Nat) (form avgDifficulty : ℚ) (team : String) : SquadPlayer :=
  { id := id, name := "P", team := team, position := "MID", price := 5
    form := form, selectedBy := "10.0", fixtures := ""
    avgDifficulty := avgDifficulty
    rating := "Poor", ratingClass := "poor"
    totalPoints := 50, pointsPerGame := "5.0"
    isCaptain := false, isViceCaptain := false }

/-- The player lookup built from the sample bootstrap. -/
def playersMap1 : List (Nat × PoolPlayer) := buildPlayersMap bootstrap

/-- The fixture projection for the sample fixtures, gameweek 1. -/
def teamFixtures1 : List (JKey × List FixtureEntry) :=
  getNextFixtures fixturesAvsB 1 (buildTeamsMap bootstrap)

/-- The `playersMap` value of `elemP` (club short name `AAA`). -/
def poolP : PoolPlayer :=
  { id := 7, web_name := "P", team := "AAA", team_code := 10, element_type := 3
    now_cost := 50, form := 5, selected_by_percent := "10.0"
    total_points := 50, points_per_game := "5.0" }

/-- A weak squad member (form 1, hard fixtures) that `poolP` can replace. -/
def weakOut : SquadPlayer := squadPlayer 99 1 4 "BBB"

/-- A second club (id 3) sharing `teamA`'s short name `AAA`. -/
def teamA2 : Team := { id := 3, short_name := "AAA" }

/-- A team lookup with a duplicate short name: `teamA` first, then `teamA2`. -/
def teamsDup : List (Nat × Team) := [(1, teamA), (3, teamA2)]

end Sample

/-! ### Lemmas about the embedded `Map` operations -/

theorem jget_jset_self {β : Type} (m : List (JKey × β)) (k : JKey) (v : β) :
    jget (jset m k v) k = some v := by
  induction m with
  | nil => simp [jset, jget]
  | cons hd tl ih =>
    obtain ⟨k', v'⟩ := hd
    by_cases hk : k' = k
    · subst hk
      simp [jset, jget]
    · by_cases h2 : tl.any (fun p => p.1 = k)
      · have hs : jset ((k', v') :: tl) k v =
            (k', v') :: tl.map (fun p => if p.1 = k then (k, v) else p) := by
          simp [jset, hk, h2]
        have htl : jset tl k v = tl.map (fun p => if p.1 = k then (k, v) else p) := by
          simp [jset, h2]
        rw [hs, jget, if_neg hk, ← htl]
        exact ih
      · have hs : jset ((k', v') :: tl) k v = (k', v') :: (tl ++ [(k, v)]) := by
          simp [jset, hk, h2]
        have htl : jset tl k v = tl ++ [(k, v)] := by
          simp [jset, h2]
        rw [hs, jget, if_neg hk, ← htl]
        exact ih

theorem jget_map_update_ne {β : Type} (m : List (JKey × β)) (k k' : JKey) (v : β)
    (h : k' ≠ k) :
    jget (m.map (fun p => if p.1 = k then (k, v) else p)) k' = jget m k' := by
  induction m with
  | nil => rfl
  | cons hd tl ih =>
    obtain ⟨k₀, v₀⟩ := hd
    simp only [List.map_cons]
    by_cases hk : k₀ = k
    · subst hk
      rw [if_pos rfl]
      have hne : ¬ k₀ = k' := fun hh => h hh.symm
      rw [jget, if_neg hne, jget, if_neg hne]
      exact ih
    · rw [if_neg hk]
      by_cases hq : k₀ = k'
      · rw [jget, if_pos hq, jget, if_pos hq]
      · rw [jget, if_neg hq, jget, if_neg hq]
        exact ih

theorem jget_append {β : Type} (m l : List (JKey × β)) (k : JKey) :
    jget (m ++ l) k =
      match jget m k with
      | some v => some v
      | none => jget l k := by
  induction m with
  | nil => rfl
  | cons hd tl ih =>
    obtain ⟨k₀, v₀⟩ := hd
    by_cases hk : k₀ = k <;> simp [jget, hk, ih]

theorem jget_jset_ne {β : Type} (m : List (JKey × β)) (k k' : JKey) (v : β)
    (h : k' ≠ k) : jget (jset m k v) k' = jget m k' := by
  unfold jset
  by_cases h2 : m.any (fun p => p.1 = k)
  · simp only [if_pos h2]
    exact jget_map_update_ne m k k' v h
  · simp only [if_neg h2]
    rw [jget_append]
    cases hm : jget m k' with
    | some v' => rfl
    | none =>
      have hne : ¬ k = k' := fun hh => h hh.symm
      simp [jget, hne]

theorem jget_mem {β : Type} {m : List (JKey × β)} {k : JKey} {v : β}
    (h : jget m k = some v) : (k, v) ∈ m := by
  induction m with
  | nil => simp [jget] at h
  | cons hd tl ih =>
    obtain ⟨k₀, v₀⟩ := hd
    by_cases hk : k₀ = k
    · subst hk
      rw [jget, if_pos rfl] at h
      obtain rfl : v₀ = v := by simpa using h
      exact List.mem_cons_self _ _
    · rw [jget, if_neg hk] at h
      exact List.mem_cons_of_mem _ (ih h)

section FoldlJset

variable {β γ : Type} (f : β → JKey) (g : β → γ)

theorem jget_foldl_jset_of_notmem (l : List β) (acc : List (JKey × γ)) (k : JKey)
    (h : ∀ e ∈ l, f e ≠ k) :
    jget (l.foldl (fun a x => jset a (f x) (g x)) acc) k = jget acc k := by
  induction l generalizing acc with
  | nil => rfl
  | cons hd tl ih =>
    rw [List.foldl_cons, ih _ (fun e he => h e (List.mem_cons_of_mem _ he)),
      jget_jset_ne]
    exact fun hh => h hd (List.mem_cons_self _ _) hh.symm

theorem jget_foldl_jset_mem (l : List β) : ∀ (acc : List (JKey × γ)) (e : β),
    e ∈ l → (l.map f).Nodup →
    jget (l.foldl (fun a x => jset a (f x) (g x)) acc) (f e) = some (g e) := by
  induction l with
  | nil => intro acc e he _; cases he
  | cons hd tl ih =>
    intro acc e he hnd
    rw [List.map_cons] at hnd
    obtain ⟨h1, h2⟩ := List.nodup_cons.mp hnd
    rw [List.foldl_cons]
    rcases List.mem_cons.mp he with rfl | he'
    · have hrest : ∀ x ∈ tl, f x ≠ f e := fun x hx hfe =>
        h1 (hfe ▸ List.mem_map_of_mem f hx)
      rw [jget_foldl_jset_of_notmem f g tl _ _ hrest]
      exact jget_jset_self _ _ _
    · exact ih _ e he' h2

end FoldlJset

/-! ### Stability and sortedness of the embedded sorts -/

theorem sorted_insertionSort_descQ {α : Type} (key : α → ℚ) (l : List α) :
    (l.insertionSort (fun a b => key b ≤ key a)).Sorted
      (fun a b => key b ≤ key a) := by
  haveI : IsTotal α fun a b => key b ≤ key a := ⟨fun a b => le_total (key b) (key a)⟩
  haveI : IsTrans α fun a b => key b ≤ key a :=
    ⟨fun a b c h1 h2 => le_trans h2 h1⟩
  exact List.sorted_insertionSort _ l

theorem sorted_insertionSort_ascNat {α : Type} (key : α → Nat) (l : List α) :
    (l.insertionSort (fun a b => key a ≤ key b)).Sorted
      (fun a b => key a ≤ key b) := by
  haveI : IsTotal α fun a b => key a ≤ key b := ⟨fun a b => le_total (key a) (key b)⟩
  haveI : IsTrans α fun a b => key a ≤ key b :=
    ⟨fun a b c h1 h2 => le_trans h1 h2⟩
  exact List.sorted_insertionSort _ l

/-! ## The claims -/

/-- C5: the rating label is the step function of
`score = 2·form + 2·(5 − avgDifficulty)`: "Excellent" iff `score ≥ 14`
(boundary inclusive), "Good" iff `10 ≤ score < 14`, "Average" iff
`6 ≤ score < 10`, "Poor" iff `score < 6`. -/
theorem getRating_step_function (form avgDifficulty : ℚ) :
    (getRating form avgDifficulty = "Excellent" ↔
      14 ≤ 2 * form + 2 * (5 - avgDifficulty))
  ∧ (getRating form avgDifficulty = "Good" ↔
      10 ≤ 2 * form + 2 * (5 - avgDifficulty) ∧
        2 * form + 2 * (5 - avgDifficulty) < 14)
  ∧ (getRating form avgDifficulty = "Average" ↔
      6 ≤ 2 * form + 2 * (5 - avgDifficulty) ∧
        2 * form + 2 * (5 - avgDifficulty) < 10)
  ∧ (getRating form avgDifficulty = "Poor" ↔
      2 * form + 2 * (5 - avgDifficulty) < 6) := by
  have hs : form * 2 + (5 - avgDifficulty) * 2 =
      2 * form + 2 * (5 - avgDifficulty) := by ring
  simp only [getRating]
  split_ifs with h1 h2 h3
  · refine ⟨iff_of_true rfl (by linarith), iff_of_false (by decide) ?_,
      iff_of_false (by decide) ?_, iff_of_false (by decide) ?_⟩
    · rintro ⟨-, h⟩; linarith
    · rintro ⟨-, h⟩; linarith
    · intro h; linarith
  · have h1' := lt_of_not_ge h1
    refine ⟨iff_of_false (by decide) ?_,
      iff_of_true rfl ⟨by linarith, by linarith⟩,
      iff_of_false (by decide) ?_, iff_of_false (by decide) ?_⟩
    · intro h; linarith
    · rintro ⟨-, h⟩; linarith
    · intro h; linarith
  · have h1' := lt_of_not_ge h1
    have h2' := lt_of_not_ge h2
    refine ⟨iff_of_false (by decide) ?_, iff_of_false (by decide) ?_,
      iff_of_true rfl ⟨by linarith, by linarith⟩,
      iff_of_false (by decide) ?_⟩
    · intro h; linarith
    · rintro ⟨h, -⟩; linarith
    · intro h; linarith
  · have h1' := lt_of_not_ge h1
    have h2' := lt_of_not_ge h2
    have h3' := lt_of_not_ge h3
    refine ⟨iff_of_false (by decide) ?_, iff_of_false (by decide) ?_,
      iff_of_false (by decide) ?_, iff_of_true rfl (by linarith)⟩
    · intro h; linarith
    · rintro ⟨h, -⟩; linarith
    · rintro ⟨h, -⟩; linarith

unseal Rat.mul Rat.add Rat.sub Rat.inv Rat.ofScientific in
/-- C4: whenever the fixture window a computation averages over is empty,
the average difficulty is the neutral default 3 — in the shared averaging
expression, in the squad analyzer's record, and in the transfer suggester's
candidate annotation (the embedding is total over `ℚ`, so no `NaN` or
division-by-zero artifact can arise). -/
theorem avgDifficulty_empty_default :
    (∀ fs : List FixtureEntry, fs = [] → avgDifficultyJS fs = 3)
  ∧ (∀ (playersMap : List (Nat × PoolPlayer))
      (teamFixtures : List (JKey × List FixtureEntry)) (pick : Pick)
      (player : PoolPlayer),
      nget playersMap pick.element = some player →
      ((jget teamFixtures (JKey.num player.team_code)).map
        (fun l => l.take 5)).getD [] = [] →
      (analyzePick playersMap teamFixtures pick).map
        (fun r => r.avgDifficulty) = some 3)
  ∧ (∀ (teamFixtures : List (JKey × List FixtureEntry)) (p : PoolPlayer),
      ((jget teamFixtures (JKey.str p.team)).map
        (fun l => l.take 5)).getD [] = [] →
      (annotateAlternative teamFixtures p).avgDifficulty = 3) := by
  have h0 : avgDifficultyJS [] = 3 := rfl
  have h3 : roundTo1 (avgDifficultyJS []) = 3 := by rw [h0]; decide
  refine ⟨fun fs hfs => by rw [hfs]; exact h0, ?_, ?_⟩
  · intro playersMap teamFixtures pick player hp hw
    simp only [analyzePick, hp, Option.map_some']
    rw [hw]
    exact congrArg some h3
  · intro teamFixtures p hw
    simp only [annotateAlternative]
    rw [hw]
    exact h0

/-- C4 witness: the default is reached at a concrete empty window. -/
theorem avgDifficulty_empty_default_witness :
    avgDifficultyJS [] = 3 ∧
    (analyzePick Sample.playersMap1 []
      { element := 7, is_captain := true, is_vice_captain := false }).map
      (fun r => r.avgDifficulty) = some 3 ∧
    (annotateAlternative [] Sample.poolP).avgDifficulty = 3 :=
  ⟨avgDifficulty_empty_default.1 [] rfl,
   avgDifficulty_empty_default.2.1 Sample.playersMap1 []
     { element := 7, is_captain := true, is_vice_captain := false }
     Sample.poolP (by decide) (by decide),
   avgDifficulty_empty_default.2.2 [] Sample.poolP (by decide)⟩

/-- C8: the transfer suggester returns at most 2 recommendations, for every
squad, pool, fixture projection and bank. -/
theorem findTransferOpportunities_length_le_two
    (squad : List SquadPlayer) (playersMap : List (Nat × PoolPlayer))
    (teamFixtures : List (JKey × List FixtureEntry)) (bank : ℚ) :
    (findTransferOpportunities squad playersMap teamFixtures bank).length ≤ 2 :=
  List.length_take_le 2 _

unseal Rat.mul Rat.add Rat.sub Rat.inv Rat.ofScientific in
/-- C1 (code bug, concrete run): the sample player (id 7) plays for club
`AAA`, whose projected window holds five difficulty-5 fixtures — arithmetic
mean 5 — yet the squad analyzer computes average difficulty 3 (the
no-fixtures default) and an empty fixture display for that pick: the lookup
`teamFixtures.get(player.team_code)` uses the numeric club code against a
map keyed by short names, so it never hits. -/
theorem analyzePick_ignores_team_window :
    (nget Sample.playersMap1 7).map (fun p => p.team) = some "AAA"
  ∧ (((jget Sample.teamFixtures1 (JKey.str "AAA")).getD []).take 5).map
      (fun f => f.difficulty) = [5, 5, 5, 5, 5]
  ∧ avgDifficultyJS
      (((jget Sample.teamFixtures1 (JKey.str "AAA")).getD []).take 5) = 5
  ∧ (analyzePick Sample.playersMap1 Sample.teamFixtures1
      { element := 7, is_captain := true, is_vice_captain := false }).map
      (fun r => r.avgDifficulty) = some 3
  ∧ (analyzePick Sample.playersMap1 Sample.teamFixtures1
      { element := 7, is_captain := true, is_vice_captain := false }).map
      (fun r => r.fixtures) = some ""
  ∧ (3 : ℚ) ≠ 5 :=
  ⟨by decide, by decide, by decide, by decide, by decide, by decide⟩

/-- C3: every pair the transfer suggester selects satisfies all four
constraints: the incoming player is not in the current squad, is affordable
(`price ≤ outgoing price + bank`), plays the same position, and has strictly
better form than the outgoing player. -/
theorem transferPairs_valid (squad : List SquadPlayer)
    (playersMap : List (Nat × PoolPlayer))
    (teamFixtures : List (JKey × List FixtureEntry)) (bank : ℚ)
    (pair : SquadPlayer × Alternative)
    (hmem : pair ∈ transferPairs squad playersMap teamFixtures bank) :
    (∀ s ∈ squad, s.id ≠ pair.2.player.id)
  ∧ pair.2.player.now_cost / 10 ≤ pair.1.price + bank
  ∧ getPosition pair.2.player.element_type = pair.1.position
  ∧ pair.1.form < pair.2.player.form := by
  obtain ⟨playerOut, hout, hsel⟩ := List.mem_filterMap.mp hmem
  cases halt : alternativesFor squad playersMap teamFixtures bank playerOut with
  | nil => rw [halt] at hsel; cases hsel
  | cons b t =>
    rw [halt] at hsel
    obtain rfl : (playerOut, b) = pair := by simpa using hsel
    have hb : b ∈ alternativesFor squad playersMap teamFixtures bank playerOut := by
      rw [halt]; exact List.mem_cons_self _ _
    unfold alternativesFor at hb
    have hb1 := List.mem_of_mem_take hb
    rw [List.mem_insertionSort] at hb1
    obtain ⟨q, hq, rfl⟩ := List.mem_map.mp hb1
    obtain ⟨hq_pool, hq_pred⟩ := List.mem_filter.mp hq
    simp only [decide_eq_true_eq] at hq_pred
    obtain ⟨hpos, hprice, hform, hid, hnotin⟩ := hq_pred
    refine ⟨?_, hprice, hpos, hform⟩
    intro s hs hcon
    exact hnotin (List.any_eq_true.mpr ⟨s, hs, by simpa using hcon⟩)

unseal Rat.mul Rat.add Rat.sub Rat.inv Rat.ofScientific in
/-- C3 witness: in the sample world the suggester pairs the weak squad
member with `poolP`, and the four constraints hold for that concrete pair. -/
theorem transferPairs_valid_witness :
    (∀ s ∈ [Sample.weakOut],
      s.id ≠ (Sample.weakOut,
        annotateAlternative Sample.teamFixtures1 Sample.poolP).2.player.id)
  ∧ (Sample.weakOut,
      annotateAlternative Sample.teamFixtures1 Sample.poolP).2.player.now_cost / 10 ≤
      (Sample.weakOut,
        annotateAlternative Sample.teamFixtures1 Sample.poolP).1.price + 0
  ∧ getPosition (Sample.weakOut,
      annotateAlternative Sample.teamFixtures1 Sample.poolP).2.player.element_type =
      (Sample.weakOut, annotateAlternative Sample.teamFixtures1 Sample.poolP).1.position
  ∧ (Sample.weakOut,
      annotateAlternative Sample.teamFixtures1 Sample.poolP).1.form <
      (Sample.weakOut,
        annotateAlternative Sample.teamFixtures1 Sample.poolP).2.player.form :=
  transferPairs_valid [Sample.weakOut] Sample.playersMap1 Sample.teamFixtures1 0
    (Sample.weakOut, annotateAlternative Sample.teamFixtures1 Sample.poolP)
    (by decide)

unseal Rat.mul Rat.add Rat.sub Rat.inv Rat.ofScientific in
/-- C2 (counterexample): two squad members with equal (negative) form tie on
captain score, so the returned order is not strictly descending, and their
confidence is −120, outside [0, 95]. -/
theorem captaincy_claim_counterexample :
    ((captainCandidates
        [Sample.squadPlayer 7 (-10) 3 "ZZZ", Sample.squadPlayer 8 (-10) 3 "ZZZ"]
        []).map (fun c => c.captainScore)) = [-100, -100]
  ∧ ¬ List.Pairwise (fun a b : ℚ => b < a)
      ((captainCandidates
          [Sample.squadPlayer 7 (-10) 3 "ZZZ", Sample.squadPlayer 8 (-10) 3 "ZZZ"]
          []).map (fun c => c.captainScore))
  ∧ ((getCaptainRecommendations
        [Sample.squadPlayer 7 (-10) 3 "ZZZ", Sample.squadPlayer 8 (-10) 3 "ZZZ"]
        []).map (fun c => c.confidence)) = [-120, -120]
  ∧ ¬ ((0 : ℤ) ≤ -120) := by
  have hs : ((captainCandidates
      [Sample.squadPlayer 7 (-10) 3 "ZZZ", Sample.squadPlayer 8 (-10) 3 "ZZZ"]
      []).map (fun c => c.captainScore)) = [-100, -100] := by decide
  refine ⟨hs, ?_, by decide, by decide⟩
  rw [hs]
  intro h
  have := (List.pairwise_cons.mp h).1 (-100) (List.mem_cons_self _ _)
  exact absurd this (lt_irrefl _)

/-- Projecting `confidence` commutes with the indexed map that builds the
returned records, since the built record copies the candidate confidence. -/
theorem map_confidence_mapIdx (l : List CaptainCandidate)
    (f : Nat → CaptainCandidate → CaptainRec)
    (hf : ∀ i c, (f i c).confidence = c.confidence) :
    (l.mapIdx f).map (fun r => r.confidence) = l.map (fun c => c.confidence) := by
  rw [List.mapIdx_eq_enum_map, List.map_map]
  have h1 : ((fun r : CaptainRec => r.confidence) ∘ Function.uncurry f)
      = (fun p : Nat × CaptainCandidate => p.2.confidence) := by
    funext p
    exact hf p.1 p.2
  rw [h1, show (fun p : Nat × CaptainCandidate => p.2.confidence) =
      (fun c : CaptainCandidate => c.confidence) ∘ Prod.snd from rfl,
    ← List.map_map, List.enum_map_snd]

/-- C2 (amended): for every squad and fixture projection, the captaincy
ranker returns exactly `min(3, squad size)` entries, in (weakly) descending
captain-score order — ties are possible, so the order is non-increasing
rather than strictly descending — and each entry's confidence equals
`min(95, round(score × 1.2))`, hence is at most 95; when additionally every
squad member's form is nonnegative and every projected difficulty lies in
the documented 1–5 range, every confidence lies in [0, 95]. -/
theorem getCaptainRecommendations_spec (squad : List SquadPlayer)
    (teamFixtures : List (JKey × List FixtureEntry)) :
    (getCaptainRecommendations squad teamFixtures).length = min 3 squad.length
  ∧ ((captainCandidates squad teamFixtures).map
      (fun c => c.captainScore)).Sorted (fun a b => b ≤ a)
  ∧ (getCaptainRecommendations squad teamFixtures).map (fun c => c.confidence)
      = (captainCandidates squad teamFixtures).map (fun c => c.confidence)
  ∧ (∀ c ∈ captainCandidates squad teamFixtures,
      c.confidence = min 95 (jsRound (c.captainScore * 1.2))
      ∧ c.confidence ≤ 95)
  ∧ ((∀ p ∈ squad, 0 ≤ p.form) →
      (∀ e ∈ teamFixtures, ∀ f ∈ e.2, 1 ≤ f.difficulty ∧ f.difficulty ≤ 5) →
      ∀ c ∈ captainCandidates squad teamFixtures,
        0 ≤ c.confidence ∧ c.confidence ≤ 95) := by
  refine ⟨?_, ?_, ?_, ?_, ?_⟩
  · simp only [getCaptainRecommendations, List.length_mapIdx, captainCandidates,
      List.length_take, List.length_insertionSort, List.length_map]
  · have hsorted :
        ((squad.map (captainCandidateOf teamFixtures)).insertionSort
          (fun a b => b.captainScore ≤ a.captainScore)).Sorted
          (fun a b => b.captainScore ≤ a.captainScore) :=
      sorted_insertionSort_descQ (fun c : CaptainCandidate => c.captainScore) _
    have htake := hsorted.sublist (List.take_sublist 3 _)
    exact List.pairwise_map.mpr htake
  · simp only [getCaptainRecommendations]
    exact map_confidence_mapIdx _ _ (fun i c => rfl)
  · intro c hc
    have hc1 := List.mem_of_mem_take hc
    rw [List.mem_insertionSort] at hc1
    obtain ⟨p, hp, rfl⟩ := List.mem_map.mp hc1
    exact ⟨rfl, min_le_left _ _⟩
  · intro hform hdiff c hc
    have hc1 := List.mem_of_mem_take hc
    rw [List.mem_insertionSort] at hc1
    obtain ⟨p, hp, rfl⟩ := List.mem_map.mp hc1
    refine ⟨?_, min_le_left _ _⟩
    have hS : 0 ≤ (captainCandidateOf teamFixtures p).captainScore := by
      simp only [captainCandidateOf]
      cases hj : jget teamFixtures (JKey.str p.team) with
      | none =>
        simp only [hj, Option.map_none', Option.getD_none, List.head?_nil]
        have := hform p hp
        nlinarith
      | some L =>
        cases L with
        | nil =>
          simp only [hj, Option.map_some', Option.getD_some, List.take_nil,
            List.head?_nil]
          have := hform p hp
          nlinarith
        | cons x xs =>
          have hmemtf : (JKey.str p.team, x :: xs) ∈ teamFixtures := jget_mem hj
          have hd := hdiff _ hmemtf x (List.mem_cons_self _ _)
          simp only [hj, Option.map_some', Option.getD_some, List.take_succ_cons,
            List.take_zero, List.head?_cons]
          have hf := hform p hp
          split_ifs <;> nlinarith [hd.1, hd.2]
    show (0 : ℤ) ≤ min 95 (jsRound ((captainCandidateOf teamFixtures p).captainScore * 1.2))
    refine le_min (by norm_num) ?_
    unfold jsRound
    refine Int.le_floor.mpr ?_
    push_cast
    nlinarith [hS]

unseal Rat.mul Rat.add Rat.sub Rat.inv Rat.ofScientific in
/-- C2 witness: the amended statement at a concrete one-player squad, with
the nonnegative-form and difficulty-range side conditions of the final
clause discharged at that input. -/
theorem getCaptainRecommendations_spec_witness :
    (getCaptainRecommendations [Sample.squadPlayer 7 5 3 "AAA"]
      Sample.teamFixtures1).length = min 3 [Sample.squadPlayer 7 5 3 "AAA"].length
  ∧ ((captainCandidates [Sample.squadPlayer 7 5 3 "AAA"]
      Sample.teamFixtures1).map (fun c => c.captainScore)).Sorted (fun a b => b ≤ a)
  ∧ (getCaptainRecommendations [Sample.squadPlayer 7 5 3 "AAA"]
      Sample.teamFixtures1).map (fun c => c.confidence)
      = (captainCandidates [Sample.squadPlayer 7 5 3 "AAA"]
          Sample.teamFixtures1).map (fun c => c.confidence)
  ∧ (∀ c ∈ captainCandidates [Sample.squadPlayer 7 5 3 "AAA"] Sample.teamFixtures1,
      c.confidence = min 95 (jsRound (c.captainScore * 1.2))
      ∧ c.confidence ≤ 95)
  ∧ (∀ c ∈ captainCandidates [Sample.squadPlayer 7 5 3 "AAA"] Sample.teamFixtures1,
      0 ≤ c.confidence ∧ c.confidence ≤ 95) := by
  have h := getCaptainRecommendations_spec [Sample.squadPlayer 7 5 3 "AAA"]
    Sample.teamFixtures1
  exact ⟨h.1, h.2.1, h.2.2.1, h.2.2.2.1, h.2.2.2.2 (by decide) (by decide)⟩

unseal Rat.mul Rat.add Rat.sub Rat.inv Rat.ofScientific in
/-- C6 (counterexample), two failure modes of "maps each team to exactly
the fixtures in the window".  Truncation: with one fixture in each of the
nine gameweeks of `[1, 1+8]`, nine fixtures qualify for team `AAA`, but the
projection keeps only the first 8 (`slice(0, 8)`).  Overwrite: when a second
team shares the short name `AAA`, the later `Map.set` replaces the first
team's (non-empty) window with the second team's (empty) one, so the first
team's fixtures are not retrievable at all. -/
theorem getNextFixtures_truncation_counterexample :
    (Sample.fixtures9.filter (fun f =>
        (1 ≤ f.event ∧ f.event ≤ 1 + 8) ∧
        (f.team_h = Sample.teamA.id ∨ f.team_a = Sample.teamA.id))).length = 9
  ∧ ((jget (getNextFixtures Sample.fixtures9 1 (buildTeamsMap Sample.bootstrap))
        (JKey.str "AAA")).getD []).length = 8
  ∧ (9 : Nat) ≠ 8
  ∧ (1, Sample.teamA) ∈ Sample.teamsDup
  ∧ (teamUpcoming Sample.fixtures9 1 Sample.teamsDup Sample.teamA).length = 8
  ∧ jget (getNextFixtures Sample.fixtures9 1 Sample.teamsDup) (JKey.str "AAA")
      = some [] :=
  ⟨by decide, by decide, by decide, by decide, by decide, by decide⟩

/-- C6 (amended): for each team of a lookup whose short names are distinct
(the counterexample shows a duplicate short name loses the earlier team's
window to a `Map.set` overwrite), the projection maps the team's short name
to the first 8 (ascending by gameweek, so at most 8 — the counterexample
shows the ninth qualifying fixture is dropped) of the fixtures in which the
team participates and whose gameweek lies in `[currentGW, currentGW+8]`;
the produced entries are sorted ascending by gameweek and each is the
annotation (opponent code, own difficulty, home/away flag) of a qualifying
source fixture. -/
theorem getNextFixtures_spec (fx : List Fixture) (gw : Nat)
    (tm : List (Nat × Team)) (e : Nat × Team)
    (he : e ∈ tm)
    (hnd : (tm.map (fun p => p.2.short_name)).Nodup) :
    jget (getNextFixtures fx gw tm) (JKey.str e.2.short_name)
      = some (teamUpcoming fx gw tm e.2)
  ∧ (teamUpcoming fx gw tm e.2).length =
      min 8 (fx.filter (fun f =>
        (gw ≤ f.event ∧ f.event ≤ gw + 8) ∧
        (f.team_h = e.2.id ∨ f.team_a = e.2.id))).length
  ∧ ((teamUpcoming fx gw tm e.2).map (fun fe => fe.gameweek)).Sorted (· ≤ ·)
  ∧ ∀ fe ∈ teamUpcoming fx gw tm e.2, ∃ f ∈ fx,
      (gw ≤ f.event ∧ f.event ≤ gw + 8) ∧
      (f.team_h = e.2.id ∨ f.team_a = e.2.id) ∧
      fe = fixtureAnnotate tm e.2 f := by
  refine ⟨?_, ?_, ?_, ?_⟩
  · have hnd2 : (tm.map (fun p => JKey.str p.2.short_name)).Nodup := by
      rw [show (fun p : Nat × Team => JKey.str p.2.short_name)
          = JKey.str ∘ (fun p : Nat × Team => p.2.short_name) from rfl,
        ← List.map_map]
      exact hnd.map (fun a b h => by cases h; rfl)
    exact jget_foldl_jset_mem (fun p => JKey.str p.2.short_name)
      (fun p => teamUpcoming fx gw tm p.2) tm [] e he hnd2
  · have h1 : (teamUpcoming fx gw tm e.2).length =
        min 8 ((upcomingFixtures fx gw).filter
          (fun f => f.team_h = e.2.id ∨ f.team_a = e.2.id)).length := by
      simp [teamUpcoming, List.length_take, List.length_map]
    have h2 : ((upcomingFixtures fx gw).filter
          (fun f => f.team_h = e.2.id ∨ f.team_a = e.2.id)).length =
        (((fx.filter (fun f => gw ≤ f.event ∧ f.event ≤ gw + 8)).filter
          (fun f => f.team_h = e.2.id ∨ f.team_a = e.2.id))).length :=
      ((List.perm_insertionSort _ _).filter _).length_eq
    have h3 : ((fx.filter (fun f => gw ≤ f.event ∧ f.event ≤ gw + 8)).filter
          (fun f => f.team_h = e.2.id ∨ f.team_a = e.2.id)) =
        fx.filter (fun f =>
          (gw ≤ f.event ∧ f.event ≤ gw + 8) ∧
          (f.team_h = e.2.id ∨ f.team_a = e.2.id)) := by
      rw [List.filter_filter]
      congr 1
      funext f
      cases h1 : decide (gw ≤ f.event ∧ f.event ≤ gw + 8) <;>
        cases h2 : decide (f.team_h = e.2.id ∨ f.team_a = e.2.id) <;>
        simp_all
    rw [h1, h2, h3]
  · have hsa := sorted_insertionSort_ascNat (fun f : Fixture => f.event)
      (fx.filter (fun f => gw ≤ f.event ∧ f.event ≤ gw + 8))
    have hp1 : ((upcomingFixtures fx gw).filter
        (fun f => f.team_h = e.2.id ∨ f.team_a = e.2.id)).Pairwise
        (fun a b => a.event ≤ b.event) :=
      hsa.sublist (List.filter_sublist _)
    have hp2 : (((upcomingFixtures fx gw).filter
          (fun f => f.team_h = e.2.id ∨ f.team_a = e.2.id)).map
        (fixtureAnnotate tm e.2)).Pairwise
        (fun a b => a.gameweek ≤ b.gameweek) :=
      List.pairwise_map.mpr (hp1.imp (fun h => h))
    have hp3 := hp2.sublist (List.take_sublist 8 _)
    exact List.pairwise_map.mpr (hp3.imp (fun h => h))
  · intro fe hfe
    have h1 := List.mem_of_mem_take hfe
    obtain ⟨f, hf, rfl⟩ := List.mem_map.mp h1
    obtain ⟨hfu, hfp⟩ := List.mem_filter.mp hf
    simp only [upcomingFixtures] at hfu
    rw [List.mem_insertionSort] at hfu
    obtain ⟨hffx, hfw⟩ := List.mem_filter.mp hfu
    simp only [decide_eq_true_eq] at hfp hfw
    exact ⟨f, hffx, hfw, hfp, rfl⟩

unseal Rat.mul Rat.add Rat.sub Rat.inv Rat.ofScientific in
/-- C6 witness: the amended statement at the sample fixtures, gameweek 1 and
team `AAA`. -/
theorem getNextFixtures_spec_witness :
    jget (getNextFixtures Sample.fixturesAvsB 1 (buildTeamsMap Sample.bootstrap))
        (JKey.str (1, Sample.teamA).2.short_name)
      = some (teamUpcoming Sample.fixturesAvsB 1
          (buildTeamsMap Sample.bootstrap) (1, Sample.teamA).2)
  ∧ (teamUpcoming Sample.fixturesAvsB 1 (buildTeamsMap Sample.bootstrap)
      (1, Sample.teamA).2).length =
      min 8 (Sample.fixturesAvsB.filter (fun f =>
        (1 ≤ f.event ∧ f.event ≤ 1 + 8) ∧
        (f.team_h = (1, Sample.teamA).2.id ∨
          f.team_a = (1, Sample.teamA).2.id))).length
  ∧ ((teamUpcoming Sample.fixturesAvsB 1 (buildTeamsMap Sample.bootstrap)
      (1, Sample.teamA).2).map (fun fe => fe.gameweek)).Sorted (· ≤ ·)
  ∧ ∀ fe ∈ teamUpcoming Sample.fixturesAvsB 1 (buildTeamsMap Sample.bootstrap)
      (1, Sample.teamA).2, ∃ f ∈ Sample.fixturesAvsB,
      (1 ≤ f.event ∧ f.event ≤ 1 + 8) ∧
      (f.team_h = (1, Sample.teamA).2.id ∨ f.team_a = (1, Sample.teamA).2.id) ∧
      fe = fixtureAnnotate (buildTeamsMap Sample.bootstrap) (1, Sample.teamA).2 f :=
  getNextFixtures_spec Sample.fixturesAvsB 1 (buildTeamsMap Sample.bootstrap)
    (1, Sample.teamA) (by decide) (by decide)

/-- C7 (counterexample): an OPTIONS request with no query parameters is an
inbound request whose manager identifier is missing, yet the handler takes
the CORS-preflight path and returns 200, not 400. -/
theorem missing_teamId_options_counterexample :
    (({ httpMethod := "OPTIONS", queryStringParameters := none } :
        RequestEvent).queryStringParameters.bind (fun q => q.teamId)) = none
  ∧ (handler { httpMethod := "OPTIONS", queryStringParameters := none }
      Sample.world).statusCode = 200
  ∧ (200 : Nat) ≠ 400 :=
  ⟨rfl, rfl, by decide⟩

/-- C7 (amended): for every request other than a CORS preflight
(`httpMethod ≠ "OPTIONS"`) whose manager identifier is missing or empty,
the handler returns 400 with a JSON error body, and no upstream fetch is
attempted. -/
theorem handler_missing_teamId (e : RequestEvent) (w : World)
    (hm : e.httpMethod ≠ "OPTIONS")
    (hq : (e.queryStringParameters.bind (fun q => q.teamId)).getD "" = "") :
    (handler e w).statusCode = 400
  ∧ (handler e w).body = Body.errorBody "Team ID is required" none
  ∧ (handler e w).trace = [] := by
  unfold handler
  rw [if_neg hm]
  simp only [hq, if_pos rfl]
  exact ⟨rfl, rfl, rfl⟩

/-- C7 witness: a GET request with no parameters at the sample world. -/
theorem handler_missing_teamId_witness :
    (handler { httpMethod := "GET", queryStringParameters := none }
      Sample.world).statusCode = 400
  ∧ (handler { httpMethod := "GET", queryStringParameters := none }
      Sample.world).body = Body.errorBody "Team ID is required" none
  ∧ (handler { httpMethod := "GET", queryStringParameters := none }
      Sample.world).trace = [] :=
  handler_missing_teamId { httpMethod := "GET", queryStringParameters := none }
    Sample.world (by decide) rfl

/-- Every insight the first three checks can push carries one of their four
fixed titles, none of which is a transfer-related title. -/
theorem mem_insightsBeforeTransfers (squad : List SquadPlayer)
    (teamData : TeamData) (i : Insight)
    (hi : i ∈ insightsBeforeTransfers squad teamData) :
    i.title ≠ "Transfer Opportunities" ∧ i.title ≠ "Team Looking Solid" := by
  simp only [insightsBeforeTransfers] at hi
  split_ifs at hi <;>
    simp only [List.mem_append, List.mem_singleton, List.not_mem_nil,
      or_false, false_or] at hi <;>
    (try casesm* _ ∨ _) <;>
    subst i <;>
    exact ⟨by simp [strongFixtureRunInsight, difficultFixturesInsight,
        formConcernsInsight, strongTeamValueInsight],
      by simp [strongFixtureRunInsight, difficultFixturesInsight,
        formConcernsInsight, strongTeamValueInsight]⟩

/-- C9: the insight generator appends exactly one of the two final
transfer-related insights — the transfers-found one when the transfer list
is non-empty, the no-transfers-needed one when it is empty — and that
insight is the final entry of the list. -/
theorem generateInsights_final (squad : List SquadPlayer)
    (transfers : List Transfer) (teamData : TeamData) :
    ((generateInsights squad transfers teamData).filter (fun i =>
        i.title = "Transfer Opportunities" ∨
        i.title = "Team Looking Solid")).length = 1
  ∧ (transfers = [] → (generateInsights squad transfers teamData).getLast?
      = some teamLookingSolidInsight)
  ∧ (transfers ≠ [] → (generateInsights squad transfers teamData).getLast?
      = some (transferOpportunitiesInsight transfers.length)) := by
  have hfilter : (insightsBeforeTransfers squad teamData).filter (fun i =>
      i.title = "Transfer Opportunities" ∨
      i.title = "Team Looking Solid") = [] := by
    rw [List.filter_eq_nil_iff]
    intro i hi
    have h := mem_insightsBeforeTransfers squad teamData i hi
    simp [h.1, h.2]
  unfold generateInsights
  by_cases ht : 0 < transfers.length
  · have hne : transfers ≠ [] := by
      intro h
      rw [h] at ht
      exact absurd ht (by decide)
    rw [if_pos ht]
    refine ⟨?_, fun h => absurd h hne, fun _ => List.getLast?_concat _⟩
    rw [List.filter_append, hfilter, List.nil_append]
    simp [transferOpportunitiesInsight]
  · have he : transfers = [] := by
      cases transfers with
      | nil => rfl
      | cons a l => exact absurd (by simp) ht
    rw [if_neg ht]
    refine ⟨?_, fun _ => List.getLast?_concat _, fun hcon => absurd he hcon⟩
    rw [List.filter_append, hfilter, List.nil_append]
    simp [teamLookingSolidInsight]

/-- C10: when no bootstrap event is marked current (or the marked event has
no id), the pipeline defaults the current gameweek to 1; the dependent picks
fetch then asks for gameweek 1, and the analysis — including the fixture
projection, whose window starts at the current gameweek — is computed at
gameweek 1. -/
theorem handler_defaults_currentGW (e : RequestEvent) (w : World)
    (teamId : String)
    (hm : e.httpMethod ≠ "OPTIONS")
    (hq : e.queryStringParameters.bind (fun q => q.teamId) = some teamId)
    (hne : teamId ≠ "")
    (hcur : (w.bootstrap.events.find? (fun ev => ev.is_current)).bind
      (fun ev => ev.id) = none) :
    currentGWOf w.bootstrap = 1
  ∧ (handler e w).trace = [FetchCall.bootstrap, FetchCall.team teamId,
      FetchCall.fixtures, FetchCall.picks teamId 1]
  ∧ ∀ a, (handler e w).body = Body.analysis a →
      a.currentGW = 1 ∧
      analyzeSquad (w.picksFor 1) (buildPlayersMap w.bootstrap)
        (getNextFixtures w.fixtures 1 (buildTeamsMap w.bootstrap))
        = some a.squad := by
  have hgw : currentGWOf w.bootstrap = 1 := by
    unfold currentGWOf
    rw [hcur]
  refine ⟨hgw, ?_, ?_⟩
  · unfold handler
    rw [if_neg hm]
    simp only [hq, Option.getD_some, if_neg hne, hgw]
    cases analyzeAll w 1 <;> rfl
  · intro a ha
    unfold handler at ha
    rw [if_neg hm] at ha
    simp only [hq, Option.getD_some, if_neg hne, hgw] at ha
    cases hA : analyzeAll w 1 with
    | none => rw [hA] at ha; cases ha
    | some a0 =>
      rw [hA] at ha
      have h2 : Body.analysis a0 = Body.analysis a := ha
      have haa : a0 = a := by injection h2
      simp only [analyzeAll] at hA
      obtain ⟨squad, hsq, hrec⟩ := Option.map_eq_some'.mp hA
      constructor
      · rw [← haa, ← hrec]
      · rw [← haa, ← hrec]
        exact hsq

/-- C10 witness: the sample world with no current event, via a GET request
with identifier "123". -/
theorem handler_defaults_currentGW_witness :
    currentGWOf Sample.worldNoCurrent.bootstrap = 1
  ∧ (handler
      { httpMethod := "GET", queryStringParameters := some { teamId := some "123" } }
      Sample.worldNoCurrent).trace =
      [FetchCall.bootstrap, FetchCall.team "123", FetchCall.fixtures,
        FetchCall.picks "123" 1]
  ∧ ∀ a, (handler
      { httpMethod := "GET", queryStringParameters := some { teamId := some "123" } }
      Sample.worldNoCurrent).body = Body.analysis a →
      a.currentGW = 1 ∧
      analyzeSquad (Sample.worldNoCurrent.picksFor 1)
        (buildPlayersMap Sample.worldNoCurrent.bootstrap)
        (getNextFixtures Sample.worldNoCurrent.fixtures 1
          (buildTeamsMap Sample.worldNoCurrent.bootstrap))
        = some a.squad :=
  handler_defaults_currentGW
    { httpMethod := "GET", queryStringParameters := some { teamId := some "123" } }
    Sample.worldNoCurrent "123" (by decide) rfl (by decide) rfl

end FPL
